import Mathlib

/-
Verification of `scrapli_netconf/transport/systemssh.py`
(class `NetconfSystemSSHTransport`).

The authentication routine `_authenticate` is a read loop over a PTY
session.  We embed it shallowly: the byte stream delivered by
`self.session.read()` is a list of chunks; what happens once the loop
would issue a read past the provided chunks is a `StreamEnd` value
(`eof` = the read raises `EOFError`, `hang` = the read blocks until the
external `operation_timeout` decorator fires).  Bytes are lists of
naturals, Python exceptions are constructors of `AuthOutcome`, and the
`threading.Lock` acquire/release calls are tracked in a `lockHeld`
field of the result.
-/

namespace ScrapliNetconf

/-- Byte strings: each element is one byte value. -/
abbrev Bytes := List Nat

/-- Bytes of an ASCII string literal. -/
def strBytes (s : String) : Bytes := s.toList.map Char.toNat

/-- ASCII lower-casing of one byte, as Python `bytes.lower` does per byte. -/
def lowerByte (b : Nat) : Nat := if 65 ≤ b ∧ b ≤ 90 then b + 32 else b

/-- ASCII upper-casing of one byte (used only to state case-insensitivity). -/
def upperByte (b : Nat) : Nat := if 97 ≤ b ∧ b ≤ 122 then b - 32 else b

/-- Python `output.lower()`. -/
def lowerBytes (s : Bytes) : Bytes := s.map lowerByte

/-- Whether `p` is a leading block of `s`. -/
def isPfx : Bytes → Bytes → Bool
  | [], _ => true
  | _ :: _, [] => false
  | a :: as, b :: bs => a == b && isPfx as bs

/-- Python `needle in haystack` on bytes: contiguous-substring membership. -/
def containsSub (needle : Bytes) : Bytes → Bool
  | [] => isPfx needle []
  | b :: rest => isPfx needle (b :: rest) || containsSub needle rest

/-- Number of (possibly overlapping) positions where `needle` occurs. -/
def countSub (needle : Bytes) : Bytes → Nat
  | [] => if isPfx needle [] then 1 else 0
  | b :: rest => (if isPfx needle (b :: rest) then 1 else 0) + countSub needle rest

/-- The literal `b"password:"` from line 98 of the source. -/
def PASSWORD : Bytes := strBytes "password:"

/-- The literal `b"<hello"` from line 113 of the source. -/
def HELLO : Bytes := strBytes "<hello"

/-- The scan `b"password:" in output.lower()` (source line 98). -/
def detectsPassword (output : Bytes) : Bool := containsSub PASSWORD (lowerBytes output)

/-- The scan `b"<hello" in output.lower()` (source line 113). -/
def detectsHello (output : Bytes) : Bool := containsSub HELLO (lowerBytes output)

/-- Message raised when the prompt was seen more than once (source lines 107-110). -/
def multiPromptMsg : Bytes :=
  strBytes "`password` seen multiple times during session establishment, likely failed authentication"

/-- Generic EOF failure message built at source lines 91-94, with the host inlined. -/
def strictKeyMsg (host : Bytes) : Bytes :=
  strBytes "Failed to open connection to host " ++ host ++
    strBytes ". Do you need to disable `auth_strict_key`?"

/-- The message passed to the timeout decorator at source line 63. -/
def timeoutMessage : Bytes := strBytes "Timed out looking for SSH login password prompt"

/-- What the byte stream does after the listed chunks are exhausted:
`eof` means the next `session.read()` raises `EOFError`; `hang` means it
blocks forever (so only the external timeout can end the call). -/
inductive StreamEnd
  | eof
  | hang
deriving DecidableEq

/-- How `_authenticate` terminates. `success` is the normal return;
`handlerError` is an exception raised by `self._ssh_message_handler`;
`authFailed` is `ScrapliAuthenticationFailed` with its message;
`timeout` is `ScrapliTimeout` raised by the `operation_timeout` decorator. -/
inductive AuthOutcome
  | success (output : Bytes)
  | handlerError (e : Bytes)
  | authFailed (msg : Bytes)
  | timeout (msg : Bytes)
deriving DecidableEq

/-- Observable result of one `_authenticate` call.  `writes` lists the
payloads passed to `session.write` in order; `finalOutput` records the
value of the `output` variable at exit and `eofReached` whether the exit
happened inside the `except EOFError` branch (both are observations used
only to state properties, not program state). -/
structure AuthResult where
  outcome : AuthOutcome
  lockHeld : Bool
  isauthenticated : Bool
  writes : List Bytes
  finalOutput : Bytes
  eofReached : Bool
deriving DecidableEq

def isSuccess : AuthOutcome → Bool
  | .success _ => true
  | _ => false

def isAuthFailed : AuthOutcome → Bool
  | .authFailed _ => true
  | _ => false

def isHandlerError : AuthOutcome → Bool
  | .handlerError _ => true
  | _ => false

def isTimeout : AuthOutcome → Bool
  | .timeout _ => true
  | _ => false

/-- The `while True` loop of `_authenticate` (source lines 79-117).
`handler` models the external collaborator `self._ssh_message_handler`:
`some e` means it raises an exception carrying `e`, `none` that it
returns normally.  Each iteration reads one chunk, appends it to
`output`, and then runs the three `if` statements of the source in
order: the password scan (which resets `output`, bumps the counter and
writes the password followed by the return char), the `password_count > 1`
check, and the `<hello` scan.  The `hang` case of the exhausted stream is
modelled from the spec: the external `operation_timeout` decorator
(scrapli.decorators, not part of this repository) aborts the blocked
read and raises its timeout error with the message from line 63; the
routine itself runs no further statement there, so the lock stays held. -/
def authLoop (host pw rc : Bytes) (handler : Bytes → Option Bytes) (ending : StreamEnd)
    (chunks : List Bytes) (output : Bytes) (count : Nat) (writes : List Bytes) : AuthResult :=
  match chunks with
  | [] =>
      match ending with
      | .hang => ⟨.timeout timeoutMessage, true, false, writes, output, false⟩
      | .eof =>
          match handler output with
          | some er => ⟨.handlerError er, true, false, writes, output, true⟩
          | none => ⟨.authFailed (strictKeyMsg host), false, false, writes, output, true⟩
  | c :: rest =>
      let acc := output ++ c
      let det := detectsPassword acc
      let output1 := if det then [] else acc
      let count1 := if det then count + 1 else count
      let writes1 := if det then writes ++ [pw, rc] else writes
      if count1 > 1 then
        ⟨.authFailed multiPromptMsg, false, false, writes1, output1, false⟩
      else if detectsHello output1 then
        ⟨.success output1, false, true, writes1, output1, false⟩
      else
        authLoop host pw rc handler ending rest output1 count1 writes1

/-- `_authenticate`: acquires the session lock, then runs the read loop
with empty accumulator, zero prompt count and no writes performed. -/
def authenticate (host pw rc : Bytes) (handler : Bytes → Option Bytes) (ending : StreamEnd)
    (chunks : List Bytes) : AuthResult :=
  authLoop host pw rc handler ending chunks [] 0 []

/-- A run of chunks that never triggers either scan: after every append
the accumulator contains neither `password:` nor `<hello`. -/
def quiet (output : Bytes) : List Bytes → Bool
  | [] => true
  | c :: rest =>
      !detectsPassword (output ++ c) && !detectsHello (output ++ c) && quiet (output ++ c) rest

/-- Concatenation of a list of byte chunks. -/
def concatAll : List Bytes → Bytes
  | [] => []
  | c :: rest => c ++ concatAll rest

/-- Python exceptions raised by the keepalive stubs. -/
inductive PyError
  | notImplementedError (msg : Bytes)
deriving DecidableEq

/-- Message of `_keepalive_network` (source line 133). -/
def keepaliveNetworkMsg : Bytes := strBytes "`network` style keepalives not supported with netconf"

/-- Message of `_keepalive_standard` (source line 149). -/
def keepaliveStandardMsg : Bytes := strBytes "keepalives not yet implemented"

/-- `_keepalive_network`: unconditionally raises, touching nothing; the
session state of any type is returned unchanged. -/
def keepaliveNetwork {σ : Type} (session : σ) : Except PyError Unit × σ :=
  (.error (.notImplementedError keepaliveNetworkMsg), session)

/-- `_keepalive_standard`: unconditionally raises, touching nothing. -/
def keepaliveStandard {σ : Type} (session : σ) : Except PyError Unit × σ :=
  (.error (.notImplementedError keepaliveStandardMsg), session)

/-- `_build_open_cmd`: the base command built by the superclass is
extended with the two subsystem tokens (source lines 14-16). -/
def buildOpenCmd (base : List String) : List String := base ++ ["-s", "netconf"]

lemma detectsHello_nil : detectsHello ([] : Bytes) = false := by decide

lemma detectsPassword_nil : detectsPassword ([] : Bytes) = false := by decide

/-- Step equation when the password scan fires: counter bumped, output
reset, password and return char written, then the two remaining checks. -/
lemma authLoop_cons_det (host pw rc : Bytes) (handler : Bytes → Option Bytes)
    (ending : StreamEnd) (c : Bytes) (rest : List Bytes) (output : Bytes) (count : Nat)
    (writes : List Bytes) (hd : detectsPassword (output ++ c) = true) :
    authLoop host pw rc handler ending (c :: rest) output count writes =
      if count + 1 > 1 then
        ⟨.authFailed multiPromptMsg, false, false, writes ++ [pw, rc], [], false⟩
      else
        authLoop host pw rc handler ending rest [] (count + 1) (writes ++ [pw, rc]) := by
  simp [authLoop, hd, detectsHello_nil]

/-- Step equation when the password scan does not fire. -/
lemma authLoop_cons_nodet (host pw rc : Bytes) (handler : Bytes → Option Bytes)
    (ending : StreamEnd) (c : Bytes) (rest : List Bytes) (output : Bytes) (count : Nat)
    (writes : List Bytes) (hd : detectsPassword (output ++ c) = false) :
    authLoop host pw rc handler ending (c :: rest) output count writes =
      if count > 1 then
        ⟨.authFailed multiPromptMsg, false, false, writes, output ++ c, false⟩
      else if detectsHello (output ++ c) then
        ⟨.success (output ++ c), false, true, writes, output ++ c, false⟩
      else
        authLoop host pw rc handler ending rest (output ++ c) count writes := by
  simp [authLoop, hd]

/-- Chunks on which neither scan fires are silently accumulated. -/
lemma authLoop_quiet (host pw rc : Bytes) (handler : Bytes → Option Bytes)
    (ending : StreamEnd) :
    ∀ (chunks tail : List Bytes) (output : Bytes) (count : Nat) (writes : List Bytes),
      count ≤ 1 → quiet output chunks = true →
      authLoop host pw rc handler ending (chunks ++ tail) output count writes =
        authLoop host pw rc handler ending tail (output ++ concatAll chunks) count writes := by
  intro chunks
  induction chunks with
  | nil => intro tail output count writes _ _; simp [concatAll]
  | cons c cs ih =>
      intro tail output count writes hcount hq
      simp only [quiet, Bool.and_eq_true, Bool.not_eq_true'] at hq
      obtain ⟨⟨hp, hh⟩, hq⟩ := hq
      rw [List.cons_append, authLoop_cons_nodet _ _ _ _ _ _ _ _ _ _ hp,
        if_neg (by omega), if_neg (by simp [hh])]
      rw [ih tail (output ++ c) count writes hcount hq]
      simp [concatAll]

/-- Every run ends in one of five shapes: success, multiple-prompt
failure, classifier exception at EOF, generic EOF failure, or timeout;
the lock flag, authentication flag, ghost fields and (for the EOF
shapes) the classifier verdict are pinned by the shape. -/
lemma authLoop_classify (host pw rc : Bytes) (handler : Bytes → Option Bytes)
    (ending : StreamEnd) :
    ∀ (chunks : List Bytes) (output : Bytes) (count : Nat) (writes : List Bytes),
      (∃ o w, authLoop host pw rc handler ending chunks output count writes =
        ⟨.success o, false, true, w, o, false⟩)
      ∨ (∃ o w, authLoop host pw rc handler ending chunks output count writes =
        ⟨.authFailed multiPromptMsg, false, false, w, o, false⟩)
      ∨ (∃ o w er, handler o = some er ∧ ending = .eof ∧
          authLoop host pw rc handler ending chunks output count writes =
            ⟨.handlerError er, true, false, w, o, true⟩)
      ∨ (∃ o w, handler o = none ∧ ending = .eof ∧
          authLoop host pw rc handler ending chunks output count writes =
            ⟨.authFailed (strictKeyMsg host), false, false, w, o, true⟩)
      ∨ (∃ o w, ending = .hang ∧
          authLoop host pw rc handler ending chunks output count writes =
            ⟨.timeout timeoutMessage, true, false, w, o, false⟩) := by
  intro chunks
  induction chunks with
  | nil =>
      intro output count writes
      cases ending with
      | hang => exact Or.inr (Or.inr (Or.inr (Or.inr ⟨output, writes, rfl, by simp [authLoop]⟩)))
      | eof =>
          cases hh : handler output with
          | some er =>
              exact Or.inr (Or.inr (Or.inl ⟨output, writes, er, hh, rfl, by simp [authLoop, hh]⟩))
          | none =>
              exact Or.inr (Or.inr (Or.inr (Or.inl ⟨output, writes, hh, rfl, by simp [authLoop, hh]⟩)))
  | cons c cs ih =>
      intro output count writes
      cases hd : detectsPassword (output ++ c) with
      | true =>
          rw [authLoop_cons_det _ _ _ _ _ _ _ _ _ _ hd]
          by_cases hc : count + 1 > 1
          · rw [if_pos hc]
            exact Or.inr (Or.inl ⟨[], writes ++ [pw, rc], rfl⟩)
          · rw [if_neg hc]
            exact ih [] (count + 1) (writes ++ [pw, rc])
      | false =>
          rw [authLoop_cons_nodet _ _ _ _ _ _ _ _ _ _ hd]
          by_cases hc : count > 1
          · rw [if_pos hc]
            exact Or.inr (Or.inl ⟨output ++ c, writes, rfl⟩)
          · rw [if_neg hc]
            cases hh : detectsHello (output ++ c) with
            | true =>
                rw [if_pos (by simp [hh])]
                exact Or.inl ⟨output ++ c, writes, rfl⟩
            | false =>
                rw [if_neg (by simp [hh])]
                exact ih (output ++ c) count writes

/-- Either the run ends in the multiple-prompt failure, or at most one
credential submission (two `write` calls) happened. -/
lemma authLoop_writes_bound (host pw rc : Bytes) (handler : Bytes → Option Bytes)
    (ending : StreamEnd) :
    ∀ (chunks : List Bytes) (output : Bytes) (count : Nat) (writes : List Bytes),
      count ≤ 1 → writes.length = 2 * count →
      (authLoop host pw rc handler ending chunks output count writes).outcome =
          .authFailed multiPromptMsg
        ∨ (authLoop host pw rc handler ending chunks output count writes).writes.length ≤ 2 := by
  intro chunks
  induction chunks with
  | nil =>
      intro output count writes hcount hlen
      right
      cases ending with
      | hang => simp [authLoop, hlen]; omega
      | eof =>
          cases hh : handler output with
          | some er => simp [authLoop, hh, hlen]; omega
          | none => simp [authLoop, hh, hlen]; omega
  | cons c cs ih =>
      intro output count writes hcount hlen
      cases hd : detectsPassword (output ++ c) with
      | true =>
          rw [authLoop_cons_det _ _ _ _ _ _ _ _ _ _ hd]
          by_cases hc : count + 1 > 1
          · rw [if_pos hc]; left; rfl
          · rw [if_neg hc]
            exact ih [] (count + 1) (writes ++ [pw, rc]) (by omega) (by simp [hlen]; omega)
      | false =>
          rw [authLoop_cons_nodet _ _ _ _ _ _ _ _ _ _ hd]
          rw [if_neg (by omega)]
          cases hh : detectsHello (output ++ c) with
          | true => rw [if_pos (by simp [hh])]; right; simp [hlen]; omega
          | false =>
              rw [if_neg (by simp [hh])]
              exact ih (output ++ c) count writes hcount hlen

lemma lowerByte_idem (b : Nat) : lowerByte (lowerByte b) = lowerByte b := by
  by_cases h : 65 ≤ b ∧ b ≤ 90
  · simp only [lowerByte, if_pos h]
    rw [if_neg (by omega)]
  · simp only [lowerByte, if_neg h]

lemma lowerByte_upperByte (b : Nat) : lowerByte (upperByte b) = lowerByte b := by
  by_cases h : 97 ≤ b ∧ b ≤ 122
  · simp only [upperByte, if_pos h, lowerByte]
    rw [if_pos (by omega), if_neg (by omega)]
    omega
  · simp only [upperByte, if_neg h]

lemma lowerBytes_idem (s : Bytes) : lowerBytes (lowerBytes s) = lowerBytes s := by
  induction s with
  | nil => rfl
  | cons b bs ih =>
      simp only [lowerBytes, List.map_cons, List.map_map] at *
      rw [lowerByte_idem]
      exact congrArg _ ih

lemma lowerBytes_upperBytes (s : Bytes) : lowerBytes (s.map upperByte) = lowerBytes s := by
  induction s with
  | nil => rfl
  | cons b bs ih =>
      simp only [lowerBytes, List.map_cons, List.map_map] at *
      rw [lowerByte_upperByte]
      exact congrArg _ ih

/-- C1 counterexample: a single read containing two `password:`
occurrences (and no `<hello`) bumps the counter only once, so when the
greeting arrives next the routine returns success instead of failing. -/
theorem C1_counterexample :
    2 ≤ countSub PASSWORD (lowerBytes (strBytes "password:password:"))
    ∧ containsSub HELLO (lowerBytes (strBytes "password:password:")) = false
    ∧ (authenticate (strBytes "c") (strBytes "pw") (strBytes "\n") (fun _ => Option.none) .hang
        [strBytes "password:password:", strBytes "<hello"]).outcome =
        AuthOutcome.success (strBytes "<hello")
    ∧ isSuccess (authenticate (strBytes "c") (strBytes "pw") (strBytes "\n")
        (fun _ => Option.none) .hang
        [strBytes "password:password:", strBytes "<hello"]).outcome = true := by
  decide

/-- C1 (amended): whenever the routine has submitted the credential more
than once — i.e. the password prompt was detected in two distinct loop
iterations — it fails with the multiple-prompt `AuthenticationFailed`
and never returns a success value. -/
theorem C1_thm (host pw rc : Bytes) (handler : Bytes → Option Bytes) (ending : StreamEnd)
    (chunks : List Bytes)
    (hw : 3 ≤ (authenticate host pw rc handler ending chunks).writes.length) :
    (authenticate host pw rc handler ending chunks).outcome =
      AuthOutcome.authFailed multiPromptMsg := by
  simp only [authenticate] at hw ⊢
  rcases authLoop_writes_bound host pw rc handler ending chunks [] 0 [] (by omega) (by simp) with
    h | h
  · exact h
  · exact absurd hw (by omega)

/-- C1 witness: two reads each containing the prompt reach two
submissions and the multiple-prompt failure. -/
theorem C1_thm_witness :
    (authenticate (strBytes "c") (strBytes "pw") (strBytes "\n") (fun _ => Option.none) .hang
        [strBytes "password:", strBytes "password:"]).outcome =
      AuthOutcome.authFailed multiPromptMsg :=
  C1_thm _ _ _ _ _ _ (by decide)

/-- C2 counterexample: when the peer-message classifier raises at
end-of-stream, `_authenticate` propagates the exception without running
`self.session_lock.release()`, so the lock stays held. -/
theorem C2_counterexample :
    isHandlerError (authenticate (strBytes "c") (strBytes "pw") (strBytes "\n")
        (fun _ => Option.some (strBytes "Host key verification failed")) .eof []).outcome = true
    ∧ (authenticate (strBytes "c") (strBytes "pw") (strBytes "\n")
        (fun _ => Option.some (strBytes "Host key verification failed")) .eof []).lockHeld =
        true := by
  decide

/-- C2 (amended): the lock is released on the success exit and on both
`AuthenticationFailed` exits, but it is left held when the classifier
raises at end-of-stream, and the routine itself performs no release on
the timeout path. -/
theorem C2_thm (host pw rc : Bytes) (handler : Bytes → Option Bytes) (ending : StreamEnd)
    (chunks : List Bytes) :
    (isSuccess (authenticate host pw rc handler ending chunks).outcome = true →
      (authenticate host pw rc handler ending chunks).lockHeld = false)
    ∧ (isAuthFailed (authenticate host pw rc handler ending chunks).outcome = true →
      (authenticate host pw rc handler ending chunks).lockHeld = false)
    ∧ (isHandlerError (authenticate host pw rc handler ending chunks).outcome = true →
      (authenticate host pw rc handler ending chunks).lockHeld = true)
    ∧ (isTimeout (authenticate host pw rc handler ending chunks).outcome = true →
      (authenticate host pw rc handler ending chunks).lockHeld = true) := by
  simp only [authenticate]
  rcases authLoop_classify host pw rc handler ending chunks [] 0 [] with
    ⟨o, w, h⟩ | ⟨o, w, h⟩ | ⟨o, w, er, _, _, h⟩ | ⟨o, w, _, _, h⟩ | ⟨o, w, _, h⟩ <;>
    rw [h] <;>
    simp [isSuccess, isAuthFailed, isHandlerError, isTimeout]

/-- C2 witness: on a successful run the lock ends up released. -/
theorem C2_thm_witness :
    (authenticate (strBytes "c") (strBytes "pw") (strBytes "\n") (fun _ => Option.none) .hang
        [strBytes "<hello"]).lockHeld = false :=
  (C2_thm _ _ _ _ _ _).1 (by decide)

/-- C3 counterexample: the single `password:` occurrence is followed by
`<hello` in the very same read; the reset discards the greeting, the
loop keeps waiting and the call can only time out — no success value is
ever returned for this input. -/
theorem C3_counterexample :
    countSub PASSWORD (lowerBytes (strBytes "password:<hello")) = 1
    ∧ containsSub HELLO (lowerBytes (strBytes "password:<hello")) = true
    ∧ strBytes "password:<hello" = strBytes "password:" ++ strBytes "<hello"
    ∧ (authenticate (strBytes "c") (strBytes "pw") (strBytes "\n") (fun _ => Option.none) .hang
        [strBytes "password:<hello"]).outcome = AuthOutcome.timeout timeoutMessage
    ∧ isSuccess (authenticate (strBytes "c") (strBytes "pw") (strBytes "\n")
        (fun _ => Option.none) .hang [strBytes "password:<hello"]).outcome = false := by
  decide

/-- C3 (amended): if the reads before the prompt trigger no scan, the
prompt is detected on read `pc`, the reads `mid` after it trigger no
scan, and the greeting completes on a later read `hc` (which does not
itself contain a prompt), then the routine writes the credential exactly
once (the password and then the return char), sets the authentication
flag, releases the lock, and returns verbatim and in receipt order the
bytes read after the credential submission through the greeting read. -/
theorem C3_thm (host pw rc : Bytes) (handler : Bytes → Option Bytes) (ending : StreamEnd)
    (pre : List Bytes) (pc : Bytes) (mid : List Bytes) (hc : Bytes) (rest : List Bytes)
    (hq1 : quiet [] pre = true)
    (hd : detectsPassword (concatAll pre ++ pc) = true)
    (hq2 : quiet [] mid = true)
    (hnp : detectsPassword (concatAll mid ++ hc) = false)
    (hh : detectsHello (concatAll mid ++ hc) = true) :
    authenticate host pw rc handler ending (pre ++ pc :: (mid ++ hc :: rest)) =
      ⟨.success (concatAll mid ++ hc), false, true, [pw, rc], concatAll mid ++ hc, false⟩ := by
  simp only [authenticate]
  rw [authLoop_quiet host pw rc handler ending pre (pc :: (mid ++ hc :: rest)) [] 0 []
      (by omega) hq1]
  simp only [List.nil_append]
  rw [authLoop_cons_det host pw rc handler ending pc (mid ++ hc :: rest) (concatAll pre) 0 [] hd,
    if_neg (by omega)]
  simp only [List.nil_append]
  rw [authLoop_quiet host pw rc handler ending mid (hc :: rest) [] 1 [pw, rc] (by omega) hq2]
  simp only [List.nil_append]
  rw [authLoop_cons_nodet host pw rc handler ending hc rest (concatAll mid) 1 [pw, rc] hnp,
    if_neg (by omega), if_pos (by simp [hh])]

/-- C3 witness: the spec scenario — a banner read, then the prompt, then
the greeting in a later read — returns exactly the greeting bytes after
one credential submission. -/
theorem C3_thm_witness :
    authenticate (strBytes "host1") (strBytes "secret") (strBytes "\n") (fun _ => Option.none)
        .hang
        ([strBytes "login ok\n"] ++ strBytes "password: " :: ([] ++ strBytes "<hello xmlns" :: [])) =
      ⟨AuthOutcome.success (concatAll [] ++ strBytes "<hello xmlns"), false, true,
        [strBytes "secret", strBytes "\n"], concatAll [] ++ strBytes "<hello xmlns", false⟩ :=
  C3_thm _ _ _ _ _ _ _ _ _ _ (by decide) (by decide) (by decide) (by decide) (by decide)

/-- C4: with an EOF-terminated stream the operation never times out and,
whenever the EOF branch is reached, the run is not a success, the
classifier is applied to the accumulated output first, a classifier
exception becomes the outcome, and only a silent classifier yields the
generic strict-host-key `AuthenticationFailed`. -/
theorem C4_thm (host pw rc : Bytes) (handler : Bytes → Option Bytes) (chunks : List Bytes) :
    isTimeout (authenticate host pw rc handler .eof chunks).outcome = false
    ∧ ((authenticate host pw rc handler .eof chunks).eofReached = true →
        isSuccess (authenticate host pw rc handler .eof chunks).outcome = false)
    ∧ (∀ er, (authenticate host pw rc handler .eof chunks).eofReached = true →
        handler (authenticate host pw rc handler .eof chunks).finalOutput = some er →
        (authenticate host pw rc handler .eof chunks).outcome = AuthOutcome.handlerError er)
    ∧ ((authenticate host pw rc handler .eof chunks).eofReached = true →
        handler (authenticate host pw rc handler .eof chunks).finalOutput = none →
        (authenticate host pw rc handler .eof chunks).outcome =
          AuthOutcome.authFailed (strictKeyMsg host)) := by
  simp only [authenticate]
  rcases authLoop_classify host pw rc handler .eof chunks [] 0 [] with
    ⟨o, w, h⟩ | ⟨o, w, h⟩ | ⟨o, w, er, hs, _, h⟩ | ⟨o, w, hn, _, h⟩ | ⟨o, w, he, h⟩
  · rw [h]; simp [isTimeout, isSuccess]
  · rw [h]; simp [isTimeout, isSuccess]
  · rw [h]
    refine ⟨by simp [isTimeout], fun _ => by simp [isSuccess], ?_, ?_⟩
    · intro er2 _ hse
      simp only at hse
      rw [hs] at hse
      cases hse
      rfl
    · intro _ hne
      simp only at hne
      rw [hs] at hne
      exact Option.noConfusion hne
  · rw [h]
    refine ⟨by simp [isTimeout], fun _ => by simp [isSuccess], ?_, ?_⟩
    · intro er2 _ hse
      simp only at hse
      rw [hn] at hse
      exact Option.noConfusion hse
    · intro _ _
      rfl
  · exact absurd he (by simp)

/-- C4 witness: a peer that prints a message and closes without a
greeting, with a silent classifier, yields the strict-host-key failure. -/
theorem C4_thm_witness :
    (authenticate (strBytes "router1") (strBytes "pw") (strBytes "\n") (fun _ => Option.none)
        .eof [strBytes "Permission denied"]).outcome =
      AuthOutcome.authFailed (strictKeyMsg (strBytes "router1")) :=
  (C4_thm _ _ _ _ _).2.2.2 (by decide) (by decide)

/-- C5 counterexample: the timeout message configured at the decoration
site starts with an upper-case letter (`Timed out ...`, head byte 84),
not the lower-case `timed out ...` (head byte 116) quoted by the claim. -/
theorem C5_counterexample :
    (authenticate (strBytes "c") (strBytes "pw") (strBytes "\n") (fun _ => Option.none) .hang
        []).outcome = AuthOutcome.timeout timeoutMessage
    ∧ timeoutMessage.headI = 84
    ∧ (strBytes "timed out looking for SSH login password prompt").headI = 116 := by
  decide

/-- C5 (amended): a stream that never delivers a terminal condition
leaves only the operation-level timeout, whose outcome is distinct from
any `AuthenticationFailed` and carries the message `Timed out looking
for SSH login password prompt` (capital T) from the decoration site. -/
theorem C5_thm (host pw rc : Bytes) (handler : Bytes → Option Bytes) (chunks : List Bytes) :
    ((authenticate host pw rc handler .hang chunks).outcome = AuthOutcome.timeout timeoutMessage
      ∨ isSuccess (authenticate host pw rc handler .hang chunks).outcome = true
      ∨ (authenticate host pw rc handler .hang chunks).outcome =
          AuthOutcome.authFailed multiPromptMsg)
    ∧ isAuthFailed (AuthOutcome.timeout timeoutMessage) = false
    ∧ isSuccess (AuthOutcome.timeout timeoutMessage) = false
    ∧ timeoutMessage = strBytes "Timed out looking for SSH login password prompt" := by
  refine ⟨?_, by decide, by decide, rfl⟩
  simp only [authenticate]
  rcases authLoop_classify host pw rc handler .hang chunks [] 0 [] with
    ⟨o, w, h⟩ | ⟨o, w, h⟩ | ⟨o, w, er, _, he, h⟩ | ⟨o, w, _, he, h⟩ | ⟨o, w, _, h⟩
  · right; left; rw [h]; rfl
  · right; right; rw [h]
  · exact absurd he (by simp)
  · exact absurd he (by simp)
  · left; rw [h]

/-- C6: when the password scan fires on the freshly extended
accumulator, the counter is bumped, the accumulator is reset to empty,
and the credential followed by the return char is written; the rest of
the iteration (the prompt-repeat check and the `<hello` scan) then runs
on the empty accumulator, so a greeting spliced into this same read is
discarded and cannot be returned on this iteration. -/
theorem C6_thm (host pw rc : Bytes) (handler : Bytes → Option Bytes) (ending : StreamEnd)
    (c : Bytes) (rest : List Bytes) (output : Bytes) (count : Nat) (writes : List Bytes)
    (hd : detectsPassword (output ++ c) = true) :
    authLoop host pw rc handler ending (c :: rest) output count writes =
      if count + 1 > 1 then
        ⟨.authFailed multiPromptMsg, false, false, writes ++ [pw, rc], [], false⟩
      else
        authLoop host pw rc handler ending rest [] (count + 1) (writes ++ [pw, rc]) :=
  authLoop_cons_det host pw rc handler ending c rest output count writes hd

/-- C6 witness: a read holding the prompt and the greeting together
resets the accumulator and continues with it empty. -/
theorem C6_thm_witness :
    authLoop (strBytes "c") (strBytes "pw") (strBytes "\n") (fun _ => Option.none) .hang
        [strBytes "password:<hello"] [] 0 [] =
      if 0 + 1 > 1 then
        ⟨AuthOutcome.authFailed multiPromptMsg, false, false,
          [] ++ [strBytes "pw", strBytes "\n"], [], false⟩
      else
        authLoop (strBytes "c") (strBytes "pw") (strBytes "\n") (fun _ => Option.none) .hang []
          [] (0 + 1) ([] ++ [strBytes "pw", strBytes "\n"]) :=
  C6_thm _ _ _ _ _ _ _ _ _ _ (by decide)

/-- C7: both scans look only at the lower-cased accumulator, so
lower-casing or upper-casing the scanned bytes never changes either
detection, and the three quoted prompt spellings and both greeting
spellings are all detected. -/
theorem C7_thm :
    (∀ s : Bytes,
        detectsPassword (lowerBytes s) = detectsPassword s
        ∧ detectsHello (lowerBytes s) = detectsHello s
        ∧ detectsPassword (s.map upperByte) = detectsPassword s
        ∧ detectsHello (s.map upperByte) = detectsHello s)
    ∧ detectsPassword (strBytes "Password:") = true
    ∧ detectsPassword (strBytes "PASSWORD:") = true
    ∧ detectsPassword (strBytes "password:") = true
    ∧ detectsHello (strBytes "<HELLO") = true
    ∧ detectsHello (strBytes "<hello") = true := by
  refine ⟨fun s => ⟨?_, ?_, ?_, ?_⟩, by decide, by decide, by decide, by decide, by decide⟩
  · simp [detectsPassword, lowerBytes_idem]
  · simp [detectsHello, lowerBytes_idem]
  · simp [detectsPassword, lowerBytes_upperBytes]
  · simp [detectsHello, lowerBytes_upperBytes]

/-- C8: one loop iteration bumps the counter and writes the credential
at most once — exactly once when the substring-membership test fires,
however many occurrences the accumulator holds — and otherwise leaves
counter and writes untouched. -/
theorem C8_thm (host pw rc : Bytes) (handler : Bytes → Option Bytes) (ending : StreamEnd)
    (c : Bytes) (rest : List Bytes) (output : Bytes) (count : Nat) (writes : List Bytes)
    (hcount : count ≤ 1) :
    authLoop host pw rc handler ending (c :: rest) output count writes =
      if detectsPassword (output ++ c) then
        (if count = 0 then authLoop host pw rc handler ending rest [] 1 (writes ++ [pw, rc])
         else ⟨.authFailed multiPromptMsg, false, false, writes ++ [pw, rc], [], false⟩)
      else if detectsHello (output ++ c) then
        ⟨.success (output ++ c), false, true, writes, output ++ c, false⟩
      else authLoop host pw rc handler ending rest (output ++ c) count writes := by
  cases hd : detectsPassword (output ++ c) with
  | true =>
      rw [authLoop_cons_det _ _ _ _ _ _ _ _ _ _ hd]
      rcases Nat.le_one_iff_eq_zero_or_eq_one.mp hcount with rfl | rfl <;> simp [hd]
  | false =>
      rw [authLoop_cons_nodet _ _ _ _ _ _ _ _ _ _ hd,
        if_neg (show ¬ count > 1 by omega)]
      simp [hd]

/-- C8 witness: a read with two prompt occurrences produces a single
increment and a single credential submission. -/
theorem C8_thm_witness :
    2 ≤ countSub PASSWORD (lowerBytes (strBytes "password:password:"))
    ∧ (authLoop (strBytes "c") (strBytes "pw") (strBytes "\n") (fun _ => Option.none) .hang
        [strBytes "password:password:"] [] 0 [] =
      if detectsPassword ([] ++ strBytes "password:password:") then
        (if 0 = 0 then
          authLoop (strBytes "c") (strBytes "pw") (strBytes "\n") (fun _ => Option.none) .hang []
            [] 1 ([] ++ [strBytes "pw", strBytes "\n"])
         else
          ⟨AuthOutcome.authFailed multiPromptMsg, false, false,
            [] ++ [strBytes "pw", strBytes "\n"], [], false⟩)
      else if detectsHello ([] ++ strBytes "password:password:") then
        ⟨AuthOutcome.success ([] ++ strBytes "password:password:"), false, true, [],
          [] ++ strBytes "password:password:", false⟩
      else
        authLoop (strBytes "c") (strBytes "pw") (strBytes "\n") (fun _ => Option.none) .hang []
          ([] ++ strBytes "password:password:") 0 []) :=
  ⟨by decide, C8_thm _ _ _ _ _ _ _ _ _ _ (by decide)⟩

/-- C9: both keepalive stubs unconditionally raise their
`NotImplementedError` — with the not-supported message for the network
flavor and the not-yet-implemented message for the standard flavor —
and return the session state of any type unchanged. -/
theorem C9_thm (σ : Type) (session : σ) :
    keepaliveNetwork session =
      (Except.error (PyError.notImplementedError keepaliveNetworkMsg), session)
    ∧ keepaliveStandard session =
      (Except.error (PyError.notImplementedError keepaliveStandardMsg), session)
    ∧ keepaliveNetworkMsg = strBytes "`network` style keepalives not supported with netconf"
    ∧ keepaliveStandardMsg = strBytes "keepalives not yet implemented" :=
  ⟨rfl, rfl, rfl, rfl⟩

/-- C10: the open-command builder appends exactly the two tokens `-s`
and `netconf` in that order, leaving the base tokens unchanged. -/
theorem C10_thm (base : List String) :
    (buildOpenCmd base).take base.length = base
    ∧ (buildOpenCmd base).drop base.length = ["-s", "netconf"]
    ∧ (buildOpenCmd base).length = base.length + 2 := by
  refine ⟨?_, ?_, ?_⟩
  · simp [buildOpenCmd]
  · simp [buildOpenCmd]
  · simp [buildOpenCmd]

end ScrapliNetconf
